import Mathlib

/-
  Shallow embedding of the `square-web-types` repository: the ambient
  TypeScript type declarations of the Square Web Payments SDK.

  The repository consists solely of `.d.ts` declaration files: interfaces,
  type aliases, enums and ambient (`declare`) classes, with documentation
  comments describing the behavior of the external, closed-source runtime.
  The embedding therefore has two layers:

  1. Data shapes and a declaration table translated directly from the
     source files (interface names, method signatures, parameter types,
     return kinds and documented exception lists).

  2. Behavior models of the documented contracts (attach / configure /
     tokenize preconditions, PaymentRequest.update, setLocale).  The
     implementations of these live in the external runtime, not in this
     repository, so each such definition is modelled from the documentation
     comments in the source and is marked as such in its doc comment.
-/

/-- The exception names documented in `@throws` annotations across the
repository, together with the error classes declared in
`errors/script.d.ts` and `src/unnamed/part_004`. -/
inductive ErrorName where
  | paymentMethodAlreadyAttached
  | paymentMethodNotAttached
  | paymentMethodUnsupported
  | unexpected
  | tokenization
  | plaidUninitialized
  | plaidMissingName
  | invalidFieldName
  | invalidConfigurationProperty
  | invalidConfigurationValue
  | scriptLoader
  | invalidPaymentRequest
  | verifyBuyer
  deriving DecidableEq

/-- Translated from `declare enum TokenStatus` in
`payment-method-types.d.ts` (values Unknown, OK, Error, Invalid, Abort,
Cancel). -/
inductive TokenStatus where
  | unknown
  | ok
  | error
  | invalid
  | abort
  | cancel
  deriving DecidableEq

/-- Translated from `interface TokenErrorDetails` in
`payment-method-types.d.ts`. -/
structure TokenErrorDetails where
  type : String
  message : String
  field : Option String
  deriving DecidableEq

/-- Translated from `declare type TokenError = TokenErrorDetails | Error`
in `payment-method-types.d.ts`; a plain JavaScript `Error` is represented
by its message. -/
inductive TokenError where
  | details (d : TokenErrorDetails)
  | jsError (message : String)
  deriving DecidableEq

/-- Translated from `declare enum MethodType` in
`payment-method-types.d.ts`. -/
inductive MethodType where
  | applePay
  | card
  | sushiPay
  | cashApp
  | googlePay
  | giftCard
  | ach
  deriving DecidableEq

/-- Translated from `interface Contact` in the contact declarations
appended to `payments.d.ts`. -/
structure Contact where
  givenName : Option String
  familyName : Option String
  addressLines : Option (List String)
  city : Option String
  state : Option String
  postalCode : Option String
  countryCode : Option String
  deriving DecidableEq

/-- Translated from `interface ShippingContact extends Contact` (adds
email and phone). -/
structure ShippingContact extends Contact where
  email : Option String
  phone : Option String
  deriving DecidableEq

/-- Translated from `interface ShippingOption` in
`payment-method-types.d.ts`. -/
structure ShippingOption where
  id : String
  label : String
  amount : String
  deriving DecidableEq

/-- Translated from `interface LineItem` in `payment-method-types.d.ts`.
`amount` is a string representation of a float with two decimal places. -/
structure LineItem where
  amount : String
  id : Option String
  imageUrl : Option String
  label : String
  pending : Option Bool
  productUrl : Option String
  deriving DecidableEq

/-- Translated from `declare enum CurrencyCode` in `money.d.ts`. -/
inductive CurrencyCode where
  | gbp
  | usd
  deriving DecidableEq

/-- Translated from `interface AchBankAccountDetails` (appended to
`apple-pay/method.d.ts` on disk). -/
structure AchBankAccountDetails where
  accountNumberSuffix : String
  accountType : String
  bankName : String
  deriving DecidableEq

/-- Modelled from the spec: `CardDetails` is declared in
`cards/types.d.ts`, a file absent from the sources; only its import is
visible, so it is modelled as an abstract shape. -/
structure CardDetails where
  deriving DecidableEq

/-- Modelled from the spec: `GiftCardDetails` is declared in
`gift-card/types.d.ts`, a file absent from the sources; only its import is
visible, so it is modelled as an abstract shape. -/
structure GiftCardDetails where
  deriving DecidableEq

/-- Translated from the inline `cashApp` field type of `TokenDetails` in
`payment-method-types.d.ts`. -/
structure CashAppDetails where
  cashtag : String
  transactionId : String
  deriving DecidableEq

/-- Translated from `interface ShippingDetails` in
`payment-method-types.d.ts`. -/
structure ShippingDetails where
  contact : Option ShippingContact
  option : Option ShippingOption
  deriving DecidableEq

/-- Translated from `interface TokenDetails` in
`payment-method-types.d.ts`. -/
structure TokenDetails where
  bankAccount : Option AchBankAccountDetails
  card : Option CardDetails
  giftCard : Option GiftCardDetails
  cashApp : Option CashAppDetails
  method : MethodType
  shipping : Option ShippingDetails
  billing : Option Contact
  deriving DecidableEq

/-- Translated from `interface TokenResult` in
`payment-method-types.d.ts`: status is required, `errors`, `token` and
`details` are optional. -/
structure TokenResult where
  status : TokenStatus
  errors : Option (List TokenError)
  token : Option String
  details : Option TokenDetails
  deriving DecidableEq

/-- Translated from `interface AchTokenOptions` in
`payment-method-types.d.ts`. -/
structure AchTokenOptions where
  accountHolderName : String
  deriving DecidableEq

/-- Translated from `interface SetLocaleResult` in `payments.d.ts`. -/
structure SetLocaleResult where
  previousLocale : String
  newLocale : String
  message : Option String
  deriving DecidableEq

/-- Modelled from the spec: `CardOptions` is declared in
`cards/types.d.ts`, a file absent from the sources; only its import is
visible. -/
structure CardOptions where
  deriving DecidableEq

/-- Modelled from the spec: `GiftCardOptions` is declared in
`gift-card/types.d.ts`, a file absent from the sources; only its import is
visible. -/
structure GiftCardOptions where
  deriving DecidableEq

/-- The outcome of a documented SDK operation: it either resolves with a
value or rejects with one of the documented exception names. -/
inductive SdkResult (α : Type) where
  | ok (value : α)
  | err (e : ErrorName)
  deriving DecidableEq

/-- Terminal status of an unsuccessful tokenization in a resolved
`TokenResult`: every `TokenStatus` other than `OK`. -/
inductive FailStatus where
  | unknown
  | error
  | invalid
  | abort
  | cancel
  deriving DecidableEq

/-- The `TokenStatus` value carried by each unsuccessful terminal
status. -/
def FailStatus.toTokenStatus : FailStatus → TokenStatus
  | .unknown => .unknown
  | .error => .error
  | .invalid => .invalid
  | .abort => .abort
  | .cancel => .cancel

/-- Modelled from the spec: the outcome of the external tokenization
exchange, as documented on `TokenResult` ("carries the status of the
request, resulting token, any errors, and details about the payment card
used") and in the usage examples of `Card.tokenize`, `GiftCard.tokenize`,
`ACH.tokenize` and `ApplePay.tokenize`. -/
inductive TokenizeOutcome where
  | success (token : String) (details : TokenDetails)
  | failure (status : FailStatus) (errs : List TokenError)
  deriving DecidableEq

/-- Modelled from the spec: the `TokenResult` a `tokenize()` call resolves
with, built from the documented fields: on success the `token` field holds
the payment token and `status` is `OK`; otherwise `errors` carries the
failures that occurred while attempting to tokenize. -/
def tokenResultOf : TokenizeOutcome → TokenResult
  | .success t d =>
      { status := .ok, errors := none, token := some t, details := some d }
  | .failure s errs =>
      { status := s.toTokenStatus, errors := some errs, token := none,
        details := none }

/-- Environment choice for a `tokenize()` call: the external exchange
either yields an outcome that the call resolves with, or the documented
`TokenizationError` is raised. -/
inductive TokenizeEnv where
  | resolves (o : TokenizeOutcome)
  | throwsTokenization
  deriving DecidableEq

/-- State of a payment method with an attachable form (`Card`,
`GiftCard`): whether the instance is attached to a DOM element. -/
structure AttachState where
  attached : Bool
  deriving DecidableEq

/-- Modelled from the spec: `Card.attach` / `GiftCard.attach` as
documented — rejects with `PaymentMethodAlreadyAttachedError` when the
instance is already attached to a DOM element, may reject with
`UnexpectedError` on an unexpected SDK error, and otherwise resolves with
the form attached.  The `unexpected` flag is the environment's choice of
an unexpected SDK failure. -/
def formAttach (st : AttachState) (unexpected : Bool) :
    SdkResult AttachState :=
  if st.attached then .err .paymentMethodAlreadyAttached
  else if unexpected then .err .unexpected
  else .ok { attached := true }

/-- Modelled from the spec: `Card.configure` / `GiftCard.configure` as
documented — rejects with `PaymentMethodNotAttachedError` when the
instance has not been attached to a DOM element yet, may reject with
`UnexpectedError`, and otherwise resolves leaving the attachment state
unchanged. -/
def formConfigure (st : AttachState) (_options : CardOptions)
    (unexpected : Bool) : SdkResult AttachState :=
  if st.attached = false then .err .paymentMethodNotAttached
  else if unexpected then .err .unexpected
  else .ok st

/-- Modelled from the spec: `Card.tokenize` / `GiftCard.tokenize` as
documented — rejects with `PaymentMethodNotAttachedError` when the
instance has not been attached to a DOM element yet, rejects with
`TokenizationError` if tokenization fails, and otherwise resolves with the
`TokenResult` of the external exchange. -/
def formTokenize (st : AttachState) (env : TokenizeEnv) :
    SdkResult TokenResult :=
  if st.attached = false then .err .paymentMethodNotAttached
  else
    match env with
    | .throwsTokenization => .err .tokenization
    | .resolves o => .ok (tokenResultOf o)

/-- Modelled from the spec: `ACH.tokenize` as documented — rejects with
`PlaidUninitializedError` when the Plaid handler was not initialized
correctly, rejects with `PlaidMissingNameError` when the required
`accountHolderName` option is not provided, rejects with
`TokenizationError` when the bank transfer request could not be tokenized,
and otherwise resolves with the `TokenResult`.  `ACH` declares no
`attach` step. -/
def achTokenize (plaidReady : Bool) (options : Option AchTokenOptions)
    (env : TokenizeEnv) : SdkResult TokenResult :=
  if plaidReady = false then .err .plaidUninitialized
  else
    match options with
    | none => .err .plaidMissingName
    | some _ =>
      match env with
      | .throwsTokenization => .err .tokenization
      | .resolves o => .ok (tokenResultOf o)

/-- Modelled from the spec: `ApplePay.tokenize` as documented — rejects
with `UnexpectedError` when Apple Pay failed for unknown reasons, rejects
with `TokenizationError` when the payment request could not be tokenized,
and otherwise resolves with the `TokenResult`.  `ApplePay` declares no
`attach` step. -/
def applePayTokenize (unexpected : Bool) (env : TokenizeEnv) :
    SdkResult TokenResult :=
  if unexpected then .err .unexpected
  else
    match env with
    | .throwsTokenization => .err .tokenization
    | .resolves o => .ok (tokenResultOf o)

/-- Translated from `interface PaymentRequestOptions` in
`payment-method-types.d.ts`: `countryCode`, `currencyCode` and `total`
are required, every other field is optional. -/
structure PaymentRequestOptions where
  countryCode : String
  currencyCode : CurrencyCode
  discounts : Option (List LineItem)
  lineItems : Option (List LineItem)
  requestBillingContact : Option Bool
  requestShippingContact : Option Bool
  shippingContact : Option ShippingContact
  shippingLineItems : Option (List LineItem)
  shippingOptions : Option (List ShippingOption)
  taxLineItems : Option (List LineItem)
  total : LineItem
  deriving DecidableEq

/-- Translated from the `Partial<PaymentRequestOptions>` argument type of
`PaymentRequest.update` in `src/unnamed/part_003`: every field of
`PaymentRequestOptions` made optional. -/
structure PaymentRequestOptionsPatch where
  countryCode : Option String
  currencyCode : Option CurrencyCode
  discounts : Option (List LineItem)
  lineItems : Option (List LineItem)
  requestBillingContact : Option Bool
  requestShippingContact : Option Bool
  shippingContact : Option ShippingContact
  shippingLineItems : Option (List LineItem)
  shippingOptions : Option (List ShippingOption)
  taxLineItems : Option (List LineItem)
  total : Option LineItem
  deriving DecidableEq

/-- The empty patch: no field provided. -/
def emptyPatch : PaymentRequestOptionsPatch :=
  { countryCode := none, currencyCode := none, discounts := none,
    lineItems := none, requestBillingContact := none,
    requestShippingContact := none, shippingContact := none,
    shippingLineItems := none, shippingOptions := none,
    taxLineItems := none, total := none }

/-- Merge of a `Partial<PaymentRequestOptions>` patch into full options:
a provided field replaces the current value, an absent field keeps it
(the semantics of updating the specified options documented on
`PaymentRequest.update`). -/
def mergeOptions (base : PaymentRequestOptions)
    (p : PaymentRequestOptionsPatch) : PaymentRequestOptions :=
  { countryCode := p.countryCode.getD base.countryCode,
    currencyCode := p.currencyCode.getD base.currencyCode,
    discounts := (p.discounts).orElse (fun _ => base.discounts),
    lineItems := (p.lineItems).orElse (fun _ => base.lineItems),
    requestBillingContact :=
      (p.requestBillingContact).orElse
        (fun _ => base.requestBillingContact),
    requestShippingContact :=
      (p.requestShippingContact).orElse
        (fun _ => base.requestShippingContact),
    shippingContact :=
      (p.shippingContact).orElse (fun _ => base.shippingContact),
    shippingLineItems :=
      (p.shippingLineItems).orElse (fun _ => base.shippingLineItems),
    shippingOptions :=
      (p.shippingOptions).orElse (fun _ => base.shippingOptions),
    taxLineItems :=
      (p.taxLineItems).orElse (fun _ => base.taxLineItems),
    total := p.total.getD base.total }

/-- State of a `PaymentRequest` instance: the current options and whether
the Apple Pay or Google Pay payment sheet is currently being displayed to
the buyer. -/
structure PaymentRequestState where
  options : PaymentRequestOptions
  sheetDisplayed : Bool
  deriving DecidableEq

/-- Modelled from the spec: `Payments.paymentRequest(options)` as declared
in `payments.d.ts` — it accepts any well-typed `PaymentRequestOptions`
object and creates a `PaymentRequest`; no validation of the options is
declared in this repository. -/
def paymentRequest (options : PaymentRequestOptions) :
    PaymentRequestState :=
  { options := options, sheetDisplayed := false }

/-- Modelled from the spec: `PaymentRequest.update(options)` as documented
in `src/unnamed/part_003` — returns `true` if the update was successful;
updates are not allowed while the Apple Pay or Google Pay payment sheets
are currently being displayed to the buyer, in which case it returns
`false` and the options are left unchanged. -/
def requestUpdate (st : PaymentRequestState)
    (p : PaymentRequestOptionsPatch) : Bool × PaymentRequestState :=
  if st.sheetDisplayed then (false, st)
  else (true, { st with options := mergeOptions st.options p })

/-- Parse a nonempty run of decimal digits into a number. -/
def digitsToNatAux : List Char → Nat → Option Nat
  | [], acc => some acc
  | c :: rest, acc =>
    if c.isDigit then digitsToNatAux rest (acc * 10 + (c.toNat - 48))
    else none

/-- Parse a nonempty all-digit character list into a number, `none`
otherwise (mirrors `String.toNat?` on the decimal strings used for
amounts). -/
def digitsToNat : List Char → Option Nat
  | [] => none
  | c :: rest => digitsToNatAux (c :: rest) 0

/-- Split a character list at its first dot, `none` when no dot occurs. -/
def splitDot : List Char → Option (List Char × List Char)
  | [] => none
  | c :: rest =>
    if c = '.' then some ([], rest)
    else
      match splitDot rest with
      | some (a, b) => some (c :: a, b)
      | none => none

/-- Parse an amount string of the documented shape (a string
representation of a float with two decimal places, such as `"15.00"`,
possibly negative for discounts) into a number of cents. -/
def parseAmountCents (s : String) : Option Int :=
  let cs := s.toList
  let neg := cs.head? = some '-'
  let body := if neg then cs.tail else cs
  match splitDot body with
  | some (whole, frac) =>
    if frac.length = 2 then
      match digitsToNat whole, digitsToNat frac with
      | some w, some f =>
        let v : Int := Int.ofNat (w * 100 + f)
        some (if neg then -v else v)
      | _, _ => none
    else none
  | none => none

/-- Sum of the amounts of a list of line items, in cents; `none` if any
amount fails to parse. -/
def sumAmounts (items : List LineItem) : Option Int :=
  items.foldl
    (fun acc it =>
      match acc, parseAmountCents it.amount with
      | some a, some b => some (a + b)
      | _, _ => none)
    (some 0)

/-- The documented constraint on `PaymentRequestOptions.total` and
`PaymentRequestUpdate.total`: the total charge of the payment should equal
the sum of the line-item amounts (trivially satisfied when no line items
are given). -/
def totalMatchesLineItemSum (o : PaymentRequestOptions) : Bool :=
  match o.lineItems with
  | none => true
  | some items => sumAmounts items == parseAmountCents o.total.amount

/-- A BCP 47 locale, simplified to its language and region subtags. -/
structure SdkLocale where
  language : String
  region : String
  deriving DecidableEq

/-- The BCP 47 string of a locale. -/
def bcp47 (l : SdkLocale) : String := l.language ++ "-" ++ l.region

/-- First supported locale with the given language, if any. -/
def findLanguage : List SdkLocale → String → Option SdkLocale
  | [], _ => none
  | l :: rest, lang =>
    if l.language = lang then some l else findLanguage rest lang

/-- Whether a locale is in the supported list. -/
def containsLocale : List SdkLocale → SdkLocale → Bool
  | [], _ => false
  | l :: rest, x => if l = x then true else containsLocale rest x

/-- Modelled from the spec: `Payments.setLocale(locale)` as documented in
`payments.d.ts` — if the specified language is not supported, the
operation is a no-op; if the language is supported but the specified
region is not, the SDK falls back to using the desired language in a
different supported region.  `supported` is the runtime's set of
supported locales; the result pairs the new SDK locale with the resolved
`SetLocaleResult`. -/
def setLocale (supported : List SdkLocale) (current requested : SdkLocale) :
    SdkLocale × SetLocaleResult :=
  let next :=
    if containsLocale supported requested then requested
    else
      match findLanguage supported requested.language with
      | some l => l
      | none => current
  (next,
    { previousLocale := bcp47 current, newLocale := bcp47 next,
      message := none })

/-- Operations of the attachable-form tokenization contract documented on
`Card` and `GiftCard` (request creation instantiates the method; `destroy`
is irrelevant to the ordering contract). -/
inductive FormOp where
  | attach
  | configure
  | tokenize
  deriving DecidableEq

/-- Environment choices for one step of the attachable-form contract:
whether an unexpected SDK error occurs, and the external tokenization
exchange outcome. -/
structure FormEnv where
  unexpected : Bool
  tok : TokenizeEnv
  deriving DecidableEq

/-- One step of the documented attachable-form contract; the state is
threaded through, a rejection stops the run. -/
def stepForm (st : AttachState) (op : FormOp) (env : FormEnv) :
    SdkResult AttachState :=
  match op with
  | .attach => formAttach st env.unexpected
  | .configure => formConfigure st {} env.unexpected
  | .tokenize =>
    match formTokenize st env.tok with
    | .ok _ => .ok st
    | .err e => .err e

/-- Run a sequence of operations of the attachable-form contract from a
given state; `none` as soon as a step rejects. -/
def runForm : AttachState → List (FormOp × FormEnv) → Option AttachState
  | st, [] => some st
  | st, (op, env) :: rest =>
    match stepForm st op env with
    | .ok st2 => runForm st2 rest
    | .err _ => none

/-- A freshly created `Card` or `GiftCard` instance: not yet attached to a
DOM element. -/
def initialForm : AttachState := { attached := false }

/-- The return kind of a declared method signature: either a
`Promise<...>` or a plain (synchronous) type. -/
inductive RetKind where
  | promiseOf (t : String)
  | plain (t : String)
  deriving DecidableEq

/-- Whether a return kind is promise-based. -/
def RetKind.isPromise : RetKind → Bool
  | .promiseOf _ => true
  | .plain _ => false

/-- A declared method signature: owning interface, method name, parameter
type names, return kind and the list of exception names carried by its
`@throws` documentation tags. -/
structure MethodDecl where
  owner : String
  name : String
  params : List String
  ret : RetKind
  declaredThrows : List ErrorName
  deriving DecidableEq

/-- The method signatures of `interface Card` in `src/unnamed/part_002`. -/
def cardMethodDecls : List MethodDecl :=
  [ { owner := "Card", name := "configure", params := ["CardOptions"],
      ret := .promiseOf "void",
      declaredThrows :=
        [.paymentMethodNotAttached, .unexpected] },
    { owner := "Card", name := "destroy", params := [],
      ret := .promiseOf "boolean", declaredThrows := [] },
    { owner := "Card", name := "attach",
      params := ["string | HTMLElement"], ret := .promiseOf "void",
      declaredThrows :=
        [.paymentMethodAlreadyAttached, .unexpected] },
    { owner := "Card", name := "recalculateSize", params := [],
      ret := .plain "void",
      declaredThrows := [.paymentMethodNotAttached] },
    { owner := "Card", name := "focus",
      params := ["CardFieldNamesValues"], ret := .promiseOf "boolean",
      declaredThrows := [.invalidFieldName] },
    { owner := "Card", name := "addEventListener",
      params := ["CardInputEventTypesValues", "callback"],
      ret := .plain "void", declaredThrows := [] },
    { owner := "Card", name := "removeEventListener",
      params := ["CardInputEventTypesValues", "callback"],
      ret := .plain "void", declaredThrows := [] },
    { owner := "Card", name := "tokenize", params := [],
      ret := .promiseOf "TokenResult",
      declaredThrows := [.tokenization, .paymentMethodNotAttached] } ]

/-- The method signatures of `interface GiftCard` in
`gift-card/method.d.ts`. -/
def giftCardMethodDecls : List MethodDecl :=
  [ { owner := "GiftCard", name := "attach",
      params := ["string | HTMLElement"], ret := .promiseOf "void",
      declaredThrows :=
        [.paymentMethodAlreadyAttached, .unexpected] },
    { owner := "GiftCard", name := "configure",
      params := ["GiftCardOptions"], ret := .promiseOf "void",
      declaredThrows :=
        [.paymentMethodNotAttached, .unexpected] },
    { owner := "GiftCard", name := "destroy", params := [],
      ret := .promiseOf "boolean", declaredThrows := [] },
    { owner := "GiftCard", name := "focus",
      params := ["GiftCardFieldNamesValues"],
      ret := .promiseOf "boolean", declaredThrows := [] },
    { owner := "GiftCard", name := "addEventListener",
      params := ["GiftCardInputEventTypesValues", "callback"],
      ret := .plain "void", declaredThrows := [] },
    { owner := "GiftCard", name := "removeEventListener",
      params := ["GiftCardInputEventTypesValues", "callback"],
      ret := .plain "void", declaredThrows := [] },
    { owner := "GiftCard", name := "tokenize", params := [],
      ret := .promiseOf "TokenResult",
      declaredThrows := [.tokenization, .paymentMethodNotAttached] } ]

/-- The method signatures of `interface ApplePay` in
`apple-pay/method.d.ts`. -/
def applePayMethodDecls : List MethodDecl :=
  [ { owner := "ApplePay", name := "tokenize", params := [],
      ret := .promiseOf "TokenResult",
      declaredThrows := [.unexpected, .tokenization] },
    { owner := "ApplePay", name := "destroy", params := [],
      ret := .promiseOf "void", declaredThrows := [] } ]

/-- The method signatures of `interface ACH` in `ach/method.d.ts`. -/
def achMethodDecls : List MethodDecl :=
  [ { owner := "ACH", name := "tokenize", params := ["AchTokenOptions"],
      ret := .promiseOf "TokenResult",
      declaredThrows :=
        [.plaidUninitialized, .plaidMissingName, .tokenization] },
    { owner := "ACH", name := "destroy", params := [],
      ret := .promiseOf "void", declaredThrows := [] },
    { owner := "ACH", name := "addEventListener",
      params := ["string", "callback"], ret := .plain "void",
      declaredThrows := [] },
    { owner := "ACH", name := "removeEventListener",
      params := ["string", "callback"], ret := .plain "void",
      declaredThrows := [] } ]

/-- The method signatures of `interface ERCPay` in
`src/unnamed/part_000`. -/
def ercPayMethodDecls : List MethodDecl :=
  [ { owner := "ERCPay", name := "attach",
      params := ["string | HTMLElement", "ERCPayButtonOptions"],
      ret := .promiseOf "void",
      declaredThrows := [.paymentMethodUnsupported] },
    { owner := "ERCPay", name := "destroy", params := [],
      ret := .promiseOf "void", declaredThrows := [] },
    { owner := "ERCPay", name := "tokenize", params := [],
      ret := .promiseOf "TokenResult",
      declaredThrows := [.unexpected] } ]

/-- The method signatures of the internal base `interface PaymentMethod`
in `payment-method-types.d.ts`. -/
def paymentMethodBaseDecls : List MethodDecl :=
  [ { owner := "PaymentMethod", name := "addEventListener",
      params := ["string", "SqEventListener"], ret := .plain "void",
      declaredThrows := [] },
    { owner := "PaymentMethod", name := "removeEventListener",
      params := ["string", "SqEventListener"], ret := .plain "void",
      declaredThrows := [] },
    { owner := "PaymentMethod", name := "destroy", params := [],
      ret := .promiseOf "boolean | void", declaredThrows := [] } ]

/-- The method signatures of `interface PaymentRequest` in
`src/unnamed/part_003`. -/
def paymentRequestMethodDecls : List MethodDecl :=
  [ { owner := "PaymentRequest", name := "addEventListener",
      params := ["PaymentRequestEventValue", "PaymentRequestCallback"],
      ret := .plain "void", declaredThrows := [] },
    { owner := "PaymentRequest", name := "update",
      params := ["Partial<PaymentRequestOptions>"],
      ret := .plain "boolean",
      declaredThrows := [.invalidPaymentRequest] } ]

/-- The method signatures of `interface Payments` in `payments.d.ts`. -/
def paymentsMethodDecls : List MethodDecl :=
  [ { owner := "Payments", name := "verifyBuyer",
      params :=
        ["string", "ChargeVerifyBuyerDetails | StoreVerifyBuyerDetails"],
      ret := .promiseOf "VerifyBuyerResponseDetails | null",
      declaredThrows := [.verifyBuyer] },
    { owner := "Payments", name := "paymentRequest",
      params := ["PaymentRequestOptions"],
      ret := .plain "PaymentRequest", declaredThrows := [] },
    { owner := "Payments", name := "setLocale", params := ["string"],
      ret := .promiseOf "SetLocaleResult",
      declaredThrows := [.unexpected] },
    { owner := "Payments", name := "card", params := ["CardOptions"],
      ret := .promiseOf "Card", declaredThrows := [.unexpected] },
    { owner := "Payments", name := "googlePay",
      params := ["PaymentRequest"], ret := .promiseOf "GooglePay",
      declaredThrows :=
        [.invalidPaymentRequest, .unexpected, .scriptLoader] },
    { owner := "Payments", name := "applePay",
      params := ["PaymentRequest"], ret := .promiseOf "ApplePay",
      declaredThrows := [.invalidPaymentRequest, .unexpected] },
    { owner := "Payments", name := "ach", params := [],
      ret := .promiseOf "ACH",
      declaredThrows := [.unexpected, .scriptLoader] },
    { owner := "Payments", name := "giftCard",
      params := ["GiftCardOptions"], ret := .promiseOf "GiftCard",
      declaredThrows := [.unexpected] },
    { owner := "Payments", name := "cashApp",
      params := ["DigitalWalletOptions"], ret := .promiseOf "CashApp",
      declaredThrows := [] } ]

/-- The externally meaningful payment-method and payment-request method
surface: the declared methods of `Card`, `GiftCard`, `ApplePay`, `ACH`,
`ERCPay`, the internal `PaymentMethod` base and `PaymentRequest`. -/
def paymentSurfaceMethods : List MethodDecl :=
  cardMethodDecls ++ giftCardMethodDecls ++ applePayMethodDecls ++
    achMethodDecls ++ ercPayMethodDecls ++ paymentMethodBaseDecls ++
    paymentRequestMethodDecls

/-- The documented `@throws` exception names of a method, looked up by
owning interface and method name. -/
def methodThrows (decls : List MethodDecl) (owner name : String) :
    List ErrorName :=
  match decls.find? (fun m => m.owner == owner && m.name == name) with
  | some m => m.declaredThrows
  | none => []

/-- The declared parameter type names of a method, looked up by owning
interface and method name. -/
def methodParams (decls : List MethodDecl) (owner name : String) :
    List String :=
  match decls.find? (fun m => m.owner == owner && m.name == name) with
  | some m => m.params
  | none => []

/-- The declared method names of an interface. -/
def interfaceMethodNames (decls : List MethodDecl) (owner : String) :
    List String :=
  (decls.filter (fun m => m.owner == owner)).map (fun m => m.name)

/-- The kinds of top-level declaration a TypeScript source file can
contain; the last three kinds carry executable code and occur in
implementation files, never in ambient declaration files. -/
inductive TSDeclKind where
  | interfaceDecl
  | typeAliasDecl
  | enumDecl
  | ambientClassDecl
  | functionWithBody
  | classWithBody
  | statement
  deriving DecidableEq

/-- Whether a declaration kind is purely ambient (type-level, with no
executable function body). -/
def TSDeclKind.isAmbient : TSDeclKind → Bool
  | .interfaceDecl => true
  | .typeAliasDecl => true
  | .enumDecl => true
  | .ambientClassDecl => true
  | .functionWithBody => false
  | .classWithBody => false
  | .statement => false

/-- A top-level declaration of one of the repository's source files. -/
structure TSDecl where
  file : String
  name : String
  kind : TSDeclKind
  deriving DecidableEq

/-- Every top-level declaration of the repository's twelve source files,
with its kind, transcribed file by file. -/
def repoDeclarations : List TSDecl :=
  [ { file := "types/money.d.ts", name := "CurrencyCode",
      kind := .enumDecl },
    { file := "types/money.d.ts", name := "CurrencyCodeValue",
      kind := .typeAliasDecl },
    { file := "types/money.d.ts", name := "Money",
      kind := .interfaceDecl },
    { file := "types/payments.d.ts", name := "SetLocaleResult",
      kind := .interfaceDecl },
    { file := "types/payments.d.ts", name := "Payments",
      kind := .interfaceDecl },
    { file := "types/payments.d.ts", name := "BaseVerifyBuyerDetails",
      kind := .interfaceDecl },
    { file := "types/payments.d.ts", name := "ChargeVerifyBuyerDetails",
      kind := .interfaceDecl },
    { file := "types/payments.d.ts", name := "StoreVerifyBuyerDetails",
      kind := .interfaceDecl },
    { file := "types/payments.d.ts",
      name := "VerifyBuyerResponseDetails", kind := .interfaceDecl },
    { file := "types/payments.d.ts", name := "Contact",
      kind := .interfaceDecl },
    { file := "types/payments.d.ts", name := "BillingContact",
      kind := .typeAliasDecl },
    { file := "types/payments.d.ts", name := "ShippingContact",
      kind := .interfaceDecl },
    { file := "types/payment-method/payment-method-types.d.ts",
      name := "MethodType", kind := .enumDecl },
    { file := "types/payment-method/payment-method-types.d.ts",
      name := "ShippingOption", kind := .interfaceDecl },
    { file := "types/payment-method/payment-method-types.d.ts",
      name := "LineItem", kind := .interfaceDecl },
    { file := "types/payment-method/payment-method-types.d.ts",
      name := "PaymentRequestOptions", kind := .interfaceDecl },
    { file := "types/payment-method/payment-method-types.d.ts",
      name := "PaymentRequestEvent", kind := .enumDecl },
    { file := "types/payment-method/payment-method-types.d.ts",
      name := "PaymentRequestEventValue", kind := .typeAliasDecl },
    { file := "types/payment-method/payment-method-types.d.ts",
      name := "ShippingErrors", kind := .interfaceDecl },
    { file := "types/payment-method/payment-method-types.d.ts",
      name := "PaymentRequestUpdate", kind := .interfaceDecl },
    { file := "types/payment-method/payment-method-types.d.ts",
      name := "PaymentRequestUpdater", kind := .typeAliasDecl },
    { file := "types/payment-method/payment-method-types.d.ts",
      name := "ShippingContactCallback", kind := .typeAliasDecl },
    { file := "types/payment-method/payment-method-types.d.ts",
      name := "ShippingOptionCallback", kind := .typeAliasDecl },
    { file := "types/payment-method/payment-method-types.d.ts",
      name := "PaymentRequestCallback", kind := .typeAliasDecl },
    { file := "types/payment-method/payment-method-types.d.ts",
      name := "SqEvent", kind := .ambientClassDecl },
    { file := "types/payment-method/payment-method-types.d.ts",
      name := "SqEventListener", kind := .interfaceDecl },
    { file := "types/payment-method/payment-method-types.d.ts",
      name := "TokenStatus", kind := .enumDecl },
    { file := "types/payment-method/payment-method-types.d.ts",
      name := "TokenErrorDetails", kind := .interfaceDecl },
    { file := "types/payment-method/payment-method-types.d.ts",
      name := "ShippingDetails", kind := .interfaceDecl },
    { file := "types/payment-method/payment-method-types.d.ts",
      name := "TokenDetails", kind := .interfaceDecl },
    { file := "types/payment-method/payment-method-types.d.ts",
      name := "AchTokenOptions", kind := .interfaceDecl },
    { file := "types/payment-method/payment-method-types.d.ts",
      name := "CardTokenOptions", kind := .interfaceDecl },
    { file := "types/payment-method/payment-method-types.d.ts",
      name := "TokenError", kind := .typeAliasDecl },
    { file := "types/payment-method/payment-method-types.d.ts",
      name := "TokenResult", kind := .interfaceDecl },
    { file := "types/payment-method/payment-method-types.d.ts",
      name := "PaymentMethod", kind := .interfaceDecl },
    { file := "types/payment-method/gift-card/method.d.ts",
      name := "GiftCard", kind := .interfaceDecl },
    { file := "types/payment-method/apple-pay/method.d.ts",
      name := "ApplePay", kind := .interfaceDecl },
    { file := "types/payment-method/apple-pay/method.d.ts",
      name := "AchBankAccountDetails", kind := .interfaceDecl },
    { file := "types/payment-method/apple-pay/method.d.ts",
      name := "PlaidEventName", kind := .enumDecl },
    { file := "types/payment-method/ach/method.d.ts", name := "ACH",
      kind := .interfaceDecl },
    { file := "errors/script.d.ts", name := "ScriptLoaderError",
      kind := .ambientClassDecl },
    { file := "unnamed/part_000", name := "SushiPayButtonOptions",
      kind := .interfaceDecl },
    { file := "unnamed/part_000", name := "ERCPay",
      kind := .interfaceDecl },
    { file := "unnamed/part_001", name := "SushiPayButtonColor",
      kind := .enumDecl },
    { file := "unnamed/part_001", name := "SushiPayButtonColorValues",
      kind := .typeAliasDecl },
    { file := "unnamed/part_001", name := "SushiPayButtonSizeMode",
      kind := .enumDecl },
    { file := "unnamed/part_001",
      name := "SushiPayButtonSizeModeValues", kind := .typeAliasDecl },
    { file := "unnamed/part_001", name := "SushiPayButtonType",
      kind := .enumDecl },
    { file := "unnamed/part_001", name := "SushiPayButtonTypeValues",
      kind := .typeAliasDecl },
    { file := "unnamed/part_001", name := "SushiPayAddressErrorReason",
      kind := .enumDecl },
    { file := "unnamed/part_002", name := "Card",
      kind := .interfaceDecl },
    { file := "unnamed/part_003", name := "PaymentRequest",
      kind := .interfaceDecl },
    { file := "unnamed/part_004", name := "InvalidFieldNameError",
      kind := .ambientClassDecl },
    { file := "unnamed/part_004",
      name := "InvalidConfigurationPropertyError",
      kind := .ambientClassDecl },
    { file := "unnamed/part_004",
      name := "InvalidConfigurationValueError",
      kind := .ambientClassDecl } ]

/-- The property names of `interface PaymentRequestOptions`, in source
order. -/
def paymentRequestOptionsFields : List String :=
  ["countryCode", "currencyCode", "discounts", "lineItems",
   "requestBillingContact", "requestShippingContact", "shippingContact",
   "shippingLineItems", "shippingOptions", "taxLineItems", "total"]

/-- The lookup of a declared return kind by owning interface and method
name. -/
def methodRet (decls : List MethodDecl) (owner name : String) : RetKind :=
  match decls.find? (fun m => m.owner == owner && m.name == name) with
  | some m => m.ret
  | none => .plain ""

lemma stepForm_attached (st : AttachState) (op : FormOp) (env : FormEnv)
    (st2 : AttachState) (h : stepForm st op env = .ok st2)
    (_ha : st2.attached = true) :
    st.attached = true ∨ op = FormOp.attach := by
  cases op with
  | attach => exact Or.inr rfl
  | configure =>
    cases hA : st.attached with
    | false => simp [stepForm, formConfigure, hA] at h
    | true => exact Or.inl rfl
  | tokenize =>
    cases hA : st.attached with
    | false => simp [stepForm, formTokenize, hA] at h
    | true => exact Or.inl rfl

lemma runForm_attach_mem :
    ∀ (tr : List (FormOp × FormEnv)) (st st2 : AttachState),
      runForm st tr = some st2 → st2.attached = true →
      st.attached = true ∨ FormOp.attach ∈ tr.map Prod.fst := by
  intro tr
  induction tr with
  | nil =>
    intro st st2 h ha
    simp [runForm] at h
    subst h
    exact Or.inl ha
  | cons p rest ih =>
    intro st st2 h ha
    obtain ⟨op, env⟩ := p
    cases hstep : stepForm st op env with
    | ok st1 =>
      have h2 : runForm st1 rest = some st2 := by
        simpa [runForm, hstep] using h
      rcases ih st1 st2 h2 ha with h3 | h3
      · rcases stepForm_attached st op env st1 hstep h3 with h4 | h4
        · exact Or.inl h4
        · subst h4
          exact Or.inr (by simp)
      · exact Or.inr (by simp [h3])
    | err e =>
      simp [runForm, hstep] at h

lemma runForm_append :
    ∀ (tr1 tr2 : List (FormOp × FormEnv)) (st : AttachState),
      runForm st (tr1 ++ tr2)
        = (runForm st tr1).bind (fun s => runForm s tr2) := by
  intro tr1
  induction tr1 with
  | nil => intro tr2 st; simp [runForm]
  | cons p rest ih =>
    intro tr2 st
    obtain ⟨op, env⟩ := p
    cases hstep : stepForm st op env with
    | ok st1 => simp [runForm, hstep, ih]
    | err e => simp [runForm, hstep]

lemma findLanguage_some_mem :
    ∀ (supported : List SdkLocale) (lang : String) (x : SdkLocale),
      findLanguage supported lang = some x →
      containsLocale supported x = true ∧ x.language = lang := by
  intro supported
  induction supported with
  | nil => intro lang x h; simp [findLanguage] at h
  | cons l rest ih =>
    intro lang x h
    by_cases hl : l.language = lang
    · rw [findLanguage, if_pos hl] at h
      injection h with h2
      subst h2
      exact ⟨by simp [containsLocale], hl⟩
    · rw [findLanguage, if_neg hl] at h
      obtain ⟨hc, hlang⟩ := ih lang x h
      refine ⟨?_, hlang⟩
      by_cases he : l = x
      · simp [containsLocale, he]
      · simp [containsLocale, he, hc]

lemma containsLocale_findLanguage :
    ∀ (supported : List SdkLocale) (x : SdkLocale),
      containsLocale supported x = true →
      (findLanguage supported x.language).isSome = true := by
  intro supported
  induction supported with
  | nil => intro x h; simp [containsLocale] at h
  | cons l rest ih =>
    intro x h
    by_cases he : l = x
    · subst he
      simp [findLanguage]
    · have h2 : containsLocale rest x = true := by
        simpa [containsLocale, he] using h
      by_cases hl : l.language = x.language
      · simp [findLanguage, hl]
      · simp only [findLanguage, if_neg hl]
        exact ih x h2

/-- A concrete `TokenDetails` value used in witnesses. -/
def sampleTokenDetails : TokenDetails :=
  { bankAccount := none, card := none, giftCard := none, cashApp := none,
    method := .card, shipping := none, billing := none }

/-- A concrete happy-path step environment used in witnesses: no
unexpected SDK error, tokenization resolves successfully. -/
def sampleFormEnv : FormEnv :=
  { unexpected := false,
    tok := .resolves (.success "cnon" sampleTokenDetails) }

/-- C1: for the payment methods with an attachable form (`Card`,
`GiftCard`), `attach` rejects with `PaymentMethodAlreadyAttachedError`
exactly when the instance is already attached to a DOM element, and
`configure` and `tokenize` reject with `PaymentMethodNotAttachedError`
exactly when the instance has not yet been attached; the declaration
table records exactly these exception names on `Card.attach`,
`GiftCard.attach`, `Card.configure`, `GiftCard.configure`,
`Card.tokenize` and `GiftCard.tokenize`. -/
theorem attachable_form_error_preconditions :
    (∀ (st : AttachState) (u : Bool),
       (formAttach st u = .err .paymentMethodAlreadyAttached)
         ↔ st.attached = true) ∧
    (∀ (st : AttachState) (o : CardOptions) (u : Bool),
       (formConfigure st o u = .err .paymentMethodNotAttached)
         ↔ st.attached = false) ∧
    (∀ (st : AttachState) (env : TokenizeEnv),
       (formTokenize st env = .err .paymentMethodNotAttached)
         ↔ st.attached = false) ∧
    methodThrows paymentSurfaceMethods "Card" "attach"
      = [.paymentMethodAlreadyAttached, .unexpected] ∧
    methodThrows paymentSurfaceMethods "GiftCard" "attach"
      = [.paymentMethodAlreadyAttached, .unexpected] ∧
    methodThrows paymentSurfaceMethods "Card" "configure"
      = [.paymentMethodNotAttached, .unexpected] ∧
    methodThrows paymentSurfaceMethods "GiftCard" "configure"
      = [.paymentMethodNotAttached, .unexpected] ∧
    methodThrows paymentSurfaceMethods "Card" "tokenize"
      = [.tokenization, .paymentMethodNotAttached] ∧
    methodThrows paymentSurfaceMethods "GiftCard" "tokenize"
      = [.tokenization, .paymentMethodNotAttached] := by
  refine ⟨?_, ?_, ?_, rfl, rfl, rfl, rfl, rfl, rfl⟩
  · intro st u
    obtain ⟨a⟩ := st
    cases a <;> cases u <;> simp [formAttach]
  · intro st o u
    obtain ⟨a⟩ := st
    cases a <;> cases u <;> simp [formConfigure]
  · intro st env
    obtain ⟨a⟩ := st
    cases a <;> cases env <;> simp [formTokenize]

/-- C2 counterexample: the tokenization contract is not
request-attach-configure-tokenize for every payment method — `ACH`
declares no `attach` method at all, and its documented `tokenize` resolves
with a `TokenResult` with no attach step having occurred; `ApplePay`
likewise declares only `tokenize` and `destroy`. -/
theorem ach_tokenizes_without_attach :
    (interfaceMethodNames paymentSurfaceMethods "ACH").contains "attach"
      = false ∧
    (interfaceMethodNames paymentSurfaceMethods "ApplePay").contains
        "attach" = false ∧
    achTokenize true (some { accountHolderName := "Jane Doe" })
        (.resolves (.success "bnon" sampleTokenDetails))
      = .ok (tokenResultOf (.success "bnon" sampleTokenDetails)) := by
  exact ⟨rfl, rfl, rfl⟩

/-- C2 (amended): for the payment methods with an attachable form
(`Card`, `GiftCard`), a `tokenize()` call that resolves with a
`TokenResult` occurs only after the method has been attached (with
`configure` permitted between attach and tokenize) and never before
attach; `ACH` and `ApplePay` declare no attach step and tokenize
directly. -/
theorem tokenize_only_after_attach :
    (∀ (tr : List (FormOp × FormEnv)) (env : FormEnv),
       (runForm initialForm
           (tr ++ [(FormOp.tokenize, env)])).isSome = true →
       FormOp.attach ∈ tr.map Prod.fst) ∧
    interfaceMethodNames paymentSurfaceMethods "ACH"
      = ["tokenize", "destroy", "addEventListener",
         "removeEventListener"] ∧
    interfaceMethodNames paymentSurfaceMethods "ApplePay"
      = ["tokenize", "destroy"] := by
  refine ⟨?_, rfl, rfl⟩
  intro tr env h
  rw [runForm_append] at h
  cases hrun : runForm initialForm tr with
  | none => rw [hrun] at h; simp at h
  | some s =>
    rw [hrun] at h
    simp only [Option.some_bind] at h
    have hs : s.attached = true := by
      cases ha : s.attached with
      | true => rfl
      | false => simp [runForm, stepForm, formTokenize, ha] at h
    rcases runForm_attach_mem tr initialForm s hrun hs with h4 | h4
    · simp [initialForm] at h4
    · exact h4

/-- Witness for the amended C2 theorem at the one-step trace that
attaches first: the run attach-then-tokenize succeeds and indeed contains
the attach operation. -/
theorem tokenize_only_after_attach_witness :
    FormOp.attach ∈ ([(FormOp.attach, sampleFormEnv)].map Prod.fst) :=
  tokenize_only_after_attach.1 [(FormOp.attach, sampleFormEnv)]
    sampleFormEnv rfl

/-- C3: every failure mode of a modelled operation is one of the
exception names documented on that method; in particular `ACH.tokenize`
documents exactly `PlaidUninitializedError`, `PlaidMissingNameError` and
`TokenizationError`, and each modelled rejection of attach, configure and
tokenize lands inside the corresponding documented `@throws` list. -/
theorem errors_within_documented_throws :
    methodThrows paymentSurfaceMethods "ACH" "tokenize"
      = [.plaidUninitialized, .plaidMissingName, .tokenization] ∧
    (∀ (st : AttachState) (u : Bool) (e : ErrorName),
       formAttach st u = .err e →
       e ∈ methodThrows paymentSurfaceMethods "Card" "attach" ∧
       e ∈ methodThrows paymentSurfaceMethods "GiftCard" "attach") ∧
    (∀ (st : AttachState) (o : CardOptions) (u : Bool) (e : ErrorName),
       formConfigure st o u = .err e →
       e ∈ methodThrows paymentSurfaceMethods "Card" "configure" ∧
       e ∈ methodThrows paymentSurfaceMethods "GiftCard" "configure") ∧
    (∀ (st : AttachState) (env : TokenizeEnv) (e : ErrorName),
       formTokenize st env = .err e →
       e ∈ methodThrows paymentSurfaceMethods "Card" "tokenize" ∧
       e ∈ methodThrows paymentSurfaceMethods "GiftCard" "tokenize") ∧
    (∀ (ready : Bool) (opts : Option AchTokenOptions)
       (env : TokenizeEnv) (e : ErrorName),
       achTokenize ready opts env = .err e →
       e ∈ methodThrows paymentSurfaceMethods "ACH" "tokenize") ∧
    (∀ (u : Bool) (env : TokenizeEnv) (e : ErrorName),
       applePayTokenize u env = .err e →
       e ∈ methodThrows paymentSurfaceMethods "ApplePay" "tokenize") := by
  refine ⟨rfl, ?_, ?_, ?_, ?_, ?_⟩
  · intro st u e h
    obtain ⟨a⟩ := st
    cases a <;> cases u <;> simp [formAttach] at h <;>
      simp [h.symm, methodThrows, paymentSurfaceMethods, cardMethodDecls,
        giftCardMethodDecls, applePayMethodDecls, achMethodDecls,
        ercPayMethodDecls, paymentMethodBaseDecls,
        paymentRequestMethodDecls]
  · intro st o u e h
    obtain ⟨a⟩ := st
    cases a <;> cases u <;> simp [formConfigure] at h <;>
      simp [h.symm, methodThrows, paymentSurfaceMethods, cardMethodDecls,
        giftCardMethodDecls, applePayMethodDecls, achMethodDecls,
        ercPayMethodDecls, paymentMethodBaseDecls,
        paymentRequestMethodDecls]
  · intro st env e h
    obtain ⟨a⟩ := st
    cases a <;> cases env <;> simp [formTokenize] at h <;>
      simp [h.symm, methodThrows, paymentSurfaceMethods, cardMethodDecls,
        giftCardMethodDecls, applePayMethodDecls, achMethodDecls,
        ercPayMethodDecls, paymentMethodBaseDecls,
        paymentRequestMethodDecls]
  · intro ready opts env e h
    cases ready <;> cases opts <;> cases env <;>
      simp [achTokenize] at h <;>
      simp [h.symm, methodThrows, paymentSurfaceMethods, cardMethodDecls,
        giftCardMethodDecls, applePayMethodDecls, achMethodDecls,
        ercPayMethodDecls, paymentMethodBaseDecls,
        paymentRequestMethodDecls]
  · intro u env e h
    cases u <;> cases env <;> simp [applePayTokenize] at h <;>
      simp [h.symm, methodThrows, paymentSurfaceMethods, cardMethodDecls,
        giftCardMethodDecls, applePayMethodDecls, achMethodDecls,
        ercPayMethodDecls, paymentMethodBaseDecls,
        paymentRequestMethodDecls]

/-- Witness for the C3 theorem at a concrete rejection: attaching an
already-attached form rejects with `PaymentMethodAlreadyAttachedError`,
which is in the documented `@throws` list of `Card.attach`. -/
theorem errors_within_documented_throws_witness :
    ErrorName.paymentMethodAlreadyAttached
      ∈ methodThrows paymentSurfaceMethods "Card" "attach" :=
  (errors_within_documented_throws.2.1 { attached := true } false
    .paymentMethodAlreadyAttached rfl).1

/-- The methods of the payment-method and payment-request surface whose
declared return type is synchronous rather than promise-based: the event
listener registration methods, `Card.recalculateSize` (void) and
`PaymentRequest.update` (boolean). -/
def nonPromiseSurfaceMethod (m : MethodDecl) : Bool :=
  m.name == "addEventListener" || m.name == "removeEventListener" ||
    (m.owner == "Card" && m.name == "recalculateSize") ||
    (m.owner == "PaymentRequest" && m.name == "update")

/-- C4 counterexample: not every method signature of the declared
payment-method and payment-request interfaces has a promise-based return
type — `Card.recalculateSize` is declared as returning `void` and
`PaymentRequest.update` as returning `boolean`. -/
theorem not_all_surface_methods_promise :
    ¬ ((paymentSurfaceMethods.all fun m => RetKind.isPromise m.ret)
        = true) ∧
    methodRet paymentSurfaceMethods "Card" "recalculateSize"
      = RetKind.plain "void" ∧
    methodRet paymentSurfaceMethods "PaymentRequest" "update"
      = RetKind.plain "boolean" := by
  refine ⟨?_, rfl, rfl⟩
  decide

/-- C4 (amended): every method signature in the declared payment-method
and payment-request interfaces has a promise-based return type, except
the synchronous `addEventListener` / `removeEventListener` registration
methods, `Card.recalculateSize` (returns void) and
`PaymentRequest.update` (returns boolean). -/
theorem surface_methods_promise_except_sync :
    (paymentSurfaceMethods.all fun m =>
        RetKind.isPromise m.ret || nonPromiseSurfaceMethod m) = true
      ∧ (paymentSurfaceMethods.all fun m =>
          !(RetKind.isPromise m.ret && nonPromiseSurfaceMethod m))
        = true := by
  exact ⟨by decide, by decide⟩

/-- A concrete well-typed `PaymentRequestOptions` value (the purchase of
the `payments.paymentRequest` example), used in witnesses. -/
def sampleOptions : PaymentRequestOptions :=
  { countryCode := "US", currencyCode := .usd, discounts := none,
    lineItems := some
      [ { amount := "1.23", id := none, imageUrl := none,
          label := "Cat", pending := some false, productUrl := none },
        { amount := "4.56", id := none, imageUrl := none,
          label := "Dog", pending := some false, productUrl := none } ],
    requestBillingContact := some false,
    requestShippingContact := some true, shippingContact := none,
    shippingLineItems := none,
    shippingOptions := some
      [ { id := "FREE", label := "Free", amount := "0.00" },
        { id := "XP", label := "Express", amount := "9.99" } ],
    taxLineItems := none,
    total := { amount := "5.79", id := none, imageUrl := none,
               label := "Total", pending := some false,
               productUrl := none } }

/-- A `PaymentRequest` whose Apple Pay or Google Pay payment sheet is
currently being displayed to the buyer, used in witnesses. -/
def sheetDisplayedRequest : PaymentRequestState :=
  { options := sampleOptions, sheetDisplayed := true }

/-- C5: `PaymentRequest.update(options)` returns `true` when the update
is applied (merging the provided fields into the current options), and
returns `false` exactly when the Apple Pay or Google Pay payment sheet is
currently being displayed to the buyer; in the `false` case the payment
request's options are unchanged. -/
theorem request_update_sheet_contract :
    ∀ (st : PaymentRequestState) (p : PaymentRequestOptionsPatch),
      (((requestUpdate st p).fst = false) ↔ st.sheetDisplayed = true) ∧
      (st.sheetDisplayed = true → (requestUpdate st p).snd = st) ∧
      (st.sheetDisplayed = false →
        requestUpdate st p
          = (true, { st with options := mergeOptions st.options p })) := by
  intro st p
  obtain ⟨o, d⟩ := st
  cases d <;> simp [requestUpdate]

/-- Witness for the C5 theorem at a concrete displayed sheet: the update
is refused and the options are unchanged. -/
theorem request_update_sheet_contract_witness :
    (requestUpdate sheetDisplayedRequest emptyPatch).snd
      = sheetDisplayedRequest :=
  (request_update_sheet_contract sheetDisplayedRequest emptyPatch).2.1
    rfl

lemma tokenResultOf_invariant (o : TokenizeOutcome) :
    ((tokenResultOf o).status = TokenStatus.ok →
      (tokenResultOf o).token.isSome = true) ∧
    ((tokenResultOf o).status ≠ TokenStatus.ok →
      (tokenResultOf o).errors.isSome = true) := by
  cases o with
  | success t d => exact ⟨fun _ => rfl, fun h => absurd rfl h⟩
  | failure s errs =>
    refine ⟨fun h => ?_, fun _ => rfl⟩
    cases s <;> simp [tokenResultOf, FailStatus.toTokenStatus] at h

/-- C6: every `TokenResult` that a modelled `tokenize()` call resolves
with satisfies the documented reading: when `status` is `OK` the `token`
field is present, and when `status` is not `OK` the `errors` field
carries the failures that occurred. -/
theorem tokenize_result_status_contract :
    (∀ (st : AttachState) (env : TokenizeEnv) (r : TokenResult),
       formTokenize st env = .ok r →
       ((r.status = TokenStatus.ok → r.token.isSome = true) ∧
        (r.status ≠ TokenStatus.ok → r.errors.isSome = true))) ∧
    (∀ (ready : Bool) (opts : Option AchTokenOptions)
       (env : TokenizeEnv) (r : TokenResult),
       achTokenize ready opts env = .ok r →
       ((r.status = TokenStatus.ok → r.token.isSome = true) ∧
        (r.status ≠ TokenStatus.ok → r.errors.isSome = true))) ∧
    (∀ (u : Bool) (env : TokenizeEnv) (r : TokenResult),
       applePayTokenize u env = .ok r →
       ((r.status = TokenStatus.ok → r.token.isSome = true) ∧
        (r.status ≠ TokenStatus.ok → r.errors.isSome = true))) := by
  refine ⟨?_, ?_, ?_⟩
  · intro st env r h
    obtain ⟨a⟩ := st
    cases a <;> cases env <;> simp [formTokenize] at h
    subst h
    exact tokenResultOf_invariant _
  · intro ready opts env r h
    cases ready <;> cases opts <;> cases env <;>
      simp [achTokenize] at h
    subst h
    exact tokenResultOf_invariant _
  · intro u env r h
    cases u <;> cases env <;> simp [applePayTokenize] at h
    subst h
    exact tokenResultOf_invariant _

/-- Witness for the C6 theorem at a concrete successful tokenization: the
resolved result has status `OK` and its token is present. -/
theorem tokenize_result_status_contract_witness :
    (tokenResultOf (.success "cnon" sampleTokenDetails)).token.isSome
      = true :=
  (tokenize_result_status_contract.1 { attached := true }
    (.resolves (.success "cnon" sampleTokenDetails))
    (tokenResultOf (.success "cnon" sampleTokenDetails)) rfl).1 rfl

/-- C7: if the language of the locale passed to `setLocale` is not
supported the call is a no-op — the SDK locale is unchanged and the
resolved `SetLocaleResult` has `newLocale` equal to `previousLocale`; if
the language is supported but the requested region is not, the resulting
locale is a supported locale that keeps the requested language in a
different region. -/
theorem set_locale_fallback_contract :
    (∀ (supported : List SdkLocale) (current requested : SdkLocale),
       findLanguage supported requested.language = none →
       (setLocale supported current requested).fst = current ∧
       (setLocale supported current requested).snd.newLocale
         = (setLocale supported current requested).snd.previousLocale) ∧
    (∀ (supported : List SdkLocale) (current requested l : SdkLocale),
       findLanguage supported requested.language = some l →
       containsLocale supported requested = false →
       ((setLocale supported current requested).fst.language
          = requested.language ∧
        containsLocale supported
          (setLocale supported current requested).fst = true ∧
        (setLocale supported current requested).fst.region
          ≠ requested.region)) := by
  constructor
  · intro supported current requested h
    have hc : containsLocale supported requested = false := by
      cases hcc : containsLocale supported requested with
      | false => rfl
      | true =>
        have h2 := containsLocale_findLanguage supported requested hcc
        rw [h] at h2
        simp at h2
    constructor
    · simp [setLocale, hc, h]
    · simp [setLocale, hc, h]
  · intro supported current requested l h hc
    obtain ⟨hmem, hlang⟩ := findLanguage_some_mem supported
      requested.language l h
    have hfst : (setLocale supported current requested).fst = l := by
      simp [setLocale, hc, h]
    have hne : l ≠ requested := by
      intro he
      rw [he, hc] at hmem
      exact Bool.noConfusion hmem
    refine ⟨by rw [hfst]; exact hlang, by rw [hfst]; exact hmem, ?_⟩
    rw [hfst]
    intro hreg
    apply hne
    obtain ⟨l1, l2⟩ := l
    obtain ⟨r1, r2⟩ := requested
    simp only at hlang hreg
    rw [hlang, hreg]

/-- Witness for the C7 theorem: with supported locales en-US and fr-FR,
requesting the unsupported language de-DE leaves the locale unchanged,
and requesting en-GB (supported language, unsupported region) falls back
to the supported en-US, keeping the language with a different region. -/
theorem set_locale_fallback_contract_witness :
    ((setLocale [⟨"en", "US"⟩, ⟨"fr", "FR"⟩] ⟨"en", "US"⟩
        ⟨"de", "DE"⟩).fst = ⟨"en", "US"⟩ ∧
      (setLocale [⟨"en", "US"⟩, ⟨"fr", "FR"⟩] ⟨"en", "US"⟩
          ⟨"de", "DE"⟩).snd.newLocale
        = (setLocale [⟨"en", "US"⟩, ⟨"fr", "FR"⟩] ⟨"en", "US"⟩
            ⟨"de", "DE"⟩).snd.previousLocale) ∧
    (setLocale [⟨"en", "US"⟩, ⟨"fr", "FR"⟩] ⟨"fr", "FR"⟩
        ⟨"en", "GB"⟩).fst.language = "en" ∧
    (setLocale [⟨"en", "US"⟩, ⟨"fr", "FR"⟩] ⟨"fr", "FR"⟩
        ⟨"en", "GB"⟩).fst.region ≠ "GB" := by
  refine ⟨set_locale_fallback_contract.1 [⟨"en", "US"⟩, ⟨"fr", "FR"⟩]
    ⟨"en", "US"⟩ ⟨"de", "DE"⟩ rfl, ?_, ?_⟩
  · exact (set_locale_fallback_contract.2 [⟨"en", "US"⟩, ⟨"fr", "FR"⟩]
      ⟨"fr", "FR"⟩ ⟨"en", "GB"⟩ ⟨"en", "US"⟩ rfl rfl).1
  · exact (set_locale_fallback_contract.2 [⟨"en", "US"⟩, ⟨"fr", "FR"⟩]
      ⟨"fr", "FR"⟩ ⟨"en", "GB"⟩ ⟨"en", "US"⟩ rfl rfl).2.2

/-- C8: every top-level declaration of the repository's source files is
an ambient interface, type alias, enum or declare-class signature with no
executable function body; the embedding's behavior models are modelled
from documentation comments, not from code in this repository. -/
theorem repo_is_declaration_only :
    (repoDeclarations.all fun d => TSDeclKind.isAmbient d.kind)
      = true := by
  decide

/-- A well-typed `PaymentRequestOptions` value whose total (5.79) does
not equal the sum of its line-item amounts (2.00): used to show that the
documented total-equals-sum constraint is not enforced by any operation
declared in this repository. -/
def mismatchedTotalOptions : PaymentRequestOptions :=
  { countryCode := "US", currencyCode := .usd, discounts := none,
    lineItems := some
      [ { amount := "2.00", id := none, imageUrl := none,
          label := "Item Cost", pending := none, productUrl := none } ],
    requestBillingContact := none, requestShippingContact := none,
    shippingContact := none, shippingLineItems := none,
    shippingOptions := none, taxLineItems := none,
    total := { amount := "5.79", id := none, imageUrl := none,
               label := "Total", pending := none, productUrl := none } }

/-- A `Partial<PaymentRequestOptions>` patch whose replacement total
(9.99) does not equal the sum of its replacement line items (1.00). -/
def mismatchedTotalPatch : PaymentRequestOptionsPatch :=
  { countryCode := none, currencyCode := none, discounts := none,
    lineItems := some
      [ { amount := "1.00", id := none, imageUrl := none,
          label := "Item Cost", pending := none, productUrl := none } ],
    requestBillingContact := none, requestShippingContact := none,
    shippingContact := none, shippingLineItems := none,
    shippingOptions := none, taxLineItems := none,
    total := some { amount := "9.99", id := none, imageUrl := none,
                    label := "Total", pending := none,
                    productUrl := none } }

/-- C9: the documented constraint that a payment total equal the sum of
the line-item amounts is not checked by any operation declared in this
repository: `payments.paymentRequest` accepts a well-typed options object
that violates it verbatim, and `PaymentRequest.update` applies a patch
that violates it and reports success. -/
theorem no_total_invariant_enforced :
    totalMatchesLineItemSum mismatchedTotalOptions = false ∧
    paymentRequest mismatchedTotalOptions
      = { options := mismatchedTotalOptions, sheetDisplayed := false } ∧
    (requestUpdate (paymentRequest mismatchedTotalOptions)
        mismatchedTotalPatch).fst = true ∧
    totalMatchesLineItemSum
        (requestUpdate (paymentRequest mismatchedTotalOptions)
          mismatchedTotalPatch).snd.options = false := by
  exact ⟨rfl, rfl, rfl, rfl⟩

/-- C10: the declared `PaymentRequestOptions` shape describes a purchase
via line items, total and shipping options; `payments.paymentRequest`
takes such options and returns a `PaymentRequest`, which is exactly what
the wallet-based factories `payments.applePay` and `payments.googlePay`
take, while the non-wallet factories `payments.card`, `payments.ach` and
`payments.giftCard` take no payment request. -/
theorem wallet_methods_take_payment_request :
    methodParams paymentsMethodDecls "Payments" "applePay"
      = ["PaymentRequest"] ∧
    methodParams paymentsMethodDecls "Payments" "googlePay"
      = ["PaymentRequest"] ∧
    (methodParams paymentsMethodDecls "Payments" "card").contains
        "PaymentRequest" = false ∧
    (methodParams paymentsMethodDecls "Payments" "ach").contains
        "PaymentRequest" = false ∧
    (methodParams paymentsMethodDecls "Payments" "giftCard").contains
        "PaymentRequest" = false ∧
    methodRet paymentsMethodDecls "Payments" "paymentRequest"
      = RetKind.plain "PaymentRequest" ∧
    methodParams paymentsMethodDecls "Payments" "paymentRequest"
      = ["PaymentRequestOptions"] ∧
    (["lineItems", "total", "shippingOptions"].all fun f =>
        paymentRequestOptionsFields.contains f) = true := by
  exact ⟨rfl, rfl, rfl, rfl, rfl, rfl, rfl, rfl⟩
